import Mathlib

/-!
Shallow embedding of the movement and animation core of the Bevy game
in src/main.rs: a player on a 20×20 grid with a facing direction, a
movement toggle, a walk-cycle phase bit, clamped per-tick movement,
sprite-index selection, and grid-to-screen coordinate conversion.
-/

namespace Adventure

/-- src/main.rs line 3: const ARENA_WIDTH: i32 = 20 -/
def ARENA_WIDTH : Int := 20

/-- src/main.rs line 4: const ARENA_HEIGHT: i32 = 20 -/
def ARENA_HEIGHT : Int := 20

/-- src/main.rs lines 6-12: enum Direction -/
inductive Direction where
  | North
  | South
  | East
  | West
deriving DecidableEq, Repr

/-- src/main.rs lines 14-18: struct Position { x: i32, y: i32 } -/
structure Position where
  x : Int
  y : Int
deriving DecidableEq, Repr

/-- src/main.rs lines 26-30: Position::new -/
def Position.new (x y : Int) : Position := { x := x, y := y }

/-- src/main.rs line 21: struct Moving(bool, bool).
The first field (Rust .0) is the "active" movement toggle, the second
(Rust .1) is the walk-cycle phase bit. -/
structure Moving where
  fst : Bool
  snd : Bool
deriving DecidableEq, Repr

/-- The component state of the player entity: the Direction, Moving and
Position components attached to it (the only entity carrying all
three, hence the only one matched by the entity_walk query). -/
structure PlayerState where
  direction : Direction
  moving : Moving
  position : Position
deriving DecidableEq, Repr

/-- src/main.rs lines 90-114: fn entity_walk. If moving.0 is set, flip
moving.1, move one cell in the facing direction clamped to the arena,
and clear moving.0 when the clamped candidate equals the pre-move
position. -/
def entity_walk (s : PlayerState) : PlayerState :=
  if s.moving.fst then
    let phase := !s.moving.snd
    let previous_position := s.position
    let position :=
      match s.direction with
      | Direction.North => { s.position with y := min (s.position.y + 1) (ARENA_HEIGHT - 1) }
      | Direction.South => { s.position with y := max (s.position.y - 1) 0 }
      | Direction.East  => { s.position with x := min (s.position.x + 1) (ARENA_WIDTH - 1) }
      | Direction.West  => { s.position with x := max (s.position.x - 1) 0 }
    if position = previous_position then
      { s with moving := { fst := false, snd := phase }, position := position }
    else
      { s with moving := { fst := true, snd := phase }, position := position }
  else s

/-- The keyboard state polled by change_player_direction: whether each
of the four directional keys W, A, S, D is currently pressed. -/
structure KeyboardState where
  w : Bool
  a : Bool
  s : Bool
  d : Bool
deriving DecidableEq, Repr

/-- src/main.rs lines 62-80: fn change_player_direction. Four
sequential if-statements polled in the order W, A, S, D, each
overwriting the direction when its key is pressed. -/
def change_player_direction (keyboard_input : KeyboardState) (direction : Direction) :
    Direction :=
  let direction := if keyboard_input.w then Direction.North else direction
  let direction := if keyboard_input.a then Direction.West else direction
  let direction := if keyboard_input.s then Direction.South else direction
  let direction := if keyboard_input.d then Direction.East else direction
  direction

/-- src/main.rs lines 82-88: fn move_player. On the release edge of
the space key, toggle moving.0. -/
def move_player (space_just_released : Bool) (moving : Moving) : Moving :=
  if space_just_released then { moving with fst := !moving.fst } else moving

/-- src/main.rs line 116 -/
def PLAYER_SPRITE_NORTH : Nat := 40
/-- src/main.rs line 117 -/
def PLAYER_SPRITE_SOUTH : Nat := 4
/-- src/main.rs line 118 -/
def PLAYER_SPRITE_EAST : Nat := 28
/-- src/main.rs line 119 -/
def PLAYER_SPRITE_WEST : Nat := 16

/-- src/main.rs lines 121-128: fn center_sprite_for -/
def center_sprite_for (direction : Direction) : Nat :=
  match direction with
  | Direction.North => PLAYER_SPRITE_NORTH
  | Direction.South => PLAYER_SPRITE_SOUTH
  | Direction.East => PLAYER_SPRITE_EAST
  | Direction.West => PLAYER_SPRITE_WEST

/-- src/main.rs lines 130-141: fn body_sprite_for -/
def body_sprite_for (direction : Direction) (moving : Moving) : Nat :=
  let center_sprite_index := center_sprite_for direction
  if moving.fst = true then
    if moving.snd = true then
      center_sprite_index + 1
    else
      center_sprite_index - 1
  else
    center_sprite_index

/-- src/main.rs lines 173-176: fn convert, with the f32 arithmetic
idealised over the rationals. -/
def convert (pos bound_window bound_game : ℚ) : ℚ :=
  let tile_size := bound_window / bound_game
  pos / bound_game * bound_window - (bound_window / 2) + (tile_size / 2)

/-- The entities spawned by setup (src/main.rs lines 198-258): a 2D
camera, the player sprite bundle with its Direction, Position, Moving
and Player components, one tile sprite bundle per arena cell, and the
title text. -/
inductive SpawnedEntity where
  | camera
  | player (direction : Direction) (position : Position) (moving : Moving)
  | tile (position : Position)
  | title
deriving DecidableEq, Repr

/-- src/main.rs lines 198-258: fn setup, as the list of entities it
spawns, in spawn order. -/
def setup : List SpawnedEntity :=
  [SpawnedEntity.camera,
   SpawnedEntity.player Direction.North (Position.new 0 0) { fst := false, snd := true }]
  ++ ((List.range ARENA_HEIGHT.toNat).flatMap fun y =>
        (List.range ARENA_WIDTH.toNat).map fun x =>
          SpawnedEntity.tile { x := (x : Int), y := (y : Int) })
  ++ [SpawnedEntity.title]

/-- Whether a spawned entity carries the Player marker component. -/
def isPlayerEntity : SpawnedEntity → Bool
  | SpawnedEntity.player _ _ _ => true
  | _ => false

/-- The player state the setup system installs: Direction::North,
Position::new(0, 0), Moving(false, true). -/
def initialPlayer : PlayerState :=
  { direction := Direction.North
    moving := { fst := false, snd := true }
    position := Position.new 0 0 }

/-- The arena-bounds predicate on a position. -/
def inBounds (p : Position) : Prop :=
  0 ≤ p.x ∧ p.x < ARENA_WIDTH ∧ 0 ≤ p.y ∧ p.y < ARENA_HEIGHT

instance (p : Position) : Decidable (inBounds p) := by
  unfold inBounds; infer_instance

/-- One scheduler-visible operation on the player state: a fixed-step
tick (entity_walk), a frame of the direction system with a given
keyboard state (change_player_direction), or a frame of the movement
toggle system with a given just-released flag (move_player). The
sprite and transform systems read but never write this state. -/
inductive Op where
  | tick
  | keys (kb : KeyboardState)
  | toggle (space_just_released : Bool)
deriving DecidableEq, Repr

/-- Apply one operation to the player state. -/
def applyOp (op : Op) (s : PlayerState) : PlayerState :=
  match op with
  | Op.tick => entity_walk s
  | Op.keys kb => { s with direction := change_player_direction kb s.direction }
  | Op.toggle r => { s with moving := move_player r s.moving }

/-- Run a sequence of operations from a starting state. -/
def runOps (ops : List Op) (s : PlayerState) : PlayerState :=
  ops.foldl (fun t op => applyOp op t) s

/-- Modelled from the spec (section 3, FacingDirection): the direction
after a frame is the most recently polled pressed key, polled in the
fixed order North, West, South, East with last write winning;
unchanged when no directional key is pressed. -/
def resolve_direction_spec (kb : KeyboardState) (direction : Direction) : Direction :=
  if kb.d then Direction.East
  else if kb.s then Direction.South
  else if kb.a then Direction.West
  else if kb.w then Direction.North
  else direction

/-! ## Helper lemmas -/

/-- The clamped candidate position entity_walk computes (the match on
the direction, src/main.rs lines 95-108), factored out for reasoning. -/
def walk_candidate (s : PlayerState) : Position :=
  match s.direction with
  | Direction.North => { s.position with y := min (s.position.y + 1) (ARENA_HEIGHT - 1) }
  | Direction.South => { s.position with y := max (s.position.y - 1) 0 }
  | Direction.East  => { s.position with x := min (s.position.x + 1) (ARENA_WIDTH - 1) }
  | Direction.West  => { s.position with x := max (s.position.x - 1) 0 }

lemma entity_walk_eq (s : PlayerState) :
    entity_walk s =
      if s.moving.fst then
        if walk_candidate s = s.position then
          { s with moving := { fst := false, snd := !s.moving.snd },
                   position := walk_candidate s }
        else
          { s with moving := { fst := true, snd := !s.moving.snd },
                   position := walk_candidate s }
      else s := rfl

lemma entity_walk_inactive (s : PlayerState) (h : s.moving.fst = false) :
    entity_walk s = s := by
  unfold entity_walk
  rw [h]
  simp

lemma entity_walk_position_active (s : PlayerState) (h : s.moving.fst = true) :
    (entity_walk s).position =
      match s.direction with
      | Direction.North => { s.position with y := min (s.position.y + 1) (ARENA_HEIGHT - 1) }
      | Direction.South => { s.position with y := max (s.position.y - 1) 0 }
      | Direction.East  => { s.position with x := min (s.position.x + 1) (ARENA_WIDTH - 1) }
      | Direction.West  => { s.position with x := max (s.position.x - 1) 0 } := by
  unfold entity_walk
  rw [h]
  simp only [if_true]
  split <;> simp_all

lemma entity_walk_preserves_bounds (s : PlayerState) (h : inBounds s.position) :
    inBounds (entity_walk s).position := by
  obtain ⟨d, ⟨act, ph⟩, ⟨x, y⟩⟩ := s
  cases act
  · rw [entity_walk_inactive _ rfl]
    exact h
  · rw [entity_walk_position_active _ rfl]
    obtain ⟨h1, h2, h3, h4⟩ := h
    simp only [ARENA_WIDTH, ARENA_HEIGHT, inBounds] at *
    cases d <;> dsimp only <;> refine ⟨?_, ?_, ?_, ?_⟩ <;> omega

lemma applyOp_preserves_bounds (op : Op) (s : PlayerState) (h : inBounds s.position) :
    inBounds (applyOp op s).position := by
  cases op with
  | tick => exact entity_walk_preserves_bounds s h
  | keys kb => exact h
  | toggle r => exact h

lemma runOps_preserves_bounds (ops : List Op) (s : PlayerState) (h : inBounds s.position) :
    inBounds (runOps ops s).position := by
  induction ops generalizing s with
  | nil => exact h
  | cons op rest ih =>
      exact ih (applyOp op s) (applyOp_preserves_bounds op s h)

lemma entity_walk_stop_at_wall (s : PlayerState) (hact : s.moving.fst = true)
    (heq : (entity_walk s).position = s.position) :
    (entity_walk s).moving.fst = false := by
  rw [entity_walk_eq, if_pos hact] at heq ⊢
  by_cases hc : walk_candidate s = s.position
  · rw [if_pos hc]
  · rw [if_neg hc] at heq
    exact absurd heq hc

lemma entity_walk_moving_snd (s : PlayerState) :
    (entity_walk s).moving.snd =
      if s.moving.fst then !s.moving.snd else s.moving.snd := by
  rw [entity_walk_eq]
  by_cases h : s.moving.fst = true
  · rw [if_pos h, if_pos h]
    split <;> rfl
  · rw [if_neg h, if_neg h]

lemma entity_walk_east_wall (y : Int) (ph : Bool) :
    entity_walk ⟨Direction.East, ⟨true, ph⟩, ⟨19, y⟩⟩ =
      ⟨Direction.East, ⟨false, !ph⟩, ⟨19, y⟩⟩ := by
  have hc : walk_candidate ⟨Direction.East, ⟨true, ph⟩, ⟨19, y⟩⟩ = ⟨19, y⟩ := by
    simp [walk_candidate, ARENA_WIDTH]
  rw [entity_walk_eq, if_pos rfl, if_pos hc, hc]

lemma entity_walk_iterate_inactive (s : PlayerState) (h : s.moving.fst = false) (n : Nat) :
    entity_walk^[n] s = s := by
  induction n with
  | zero => rfl
  | succ m ih => rw [Function.iterate_succ_apply, entity_walk_inactive s h, ih]

lemma entity_walk_iterate_east_wall (y : Int) (ph : Bool) (n : Nat) (hn : 1 ≤ n) :
    entity_walk^[n] ⟨Direction.East, ⟨true, ph⟩, ⟨19, y⟩⟩ =
      ⟨Direction.East, ⟨false, !ph⟩, ⟨19, y⟩⟩ := by
  obtain ⟨m, rfl⟩ : ∃ m, n = m + 1 := ⟨n - 1, by omega⟩
  rw [Function.iterate_succ_apply, entity_walk_east_wall]
  exact entity_walk_iterate_inactive _ rfl m

/-! ## Claim theorems -/

/-- C1: for every in-bounds position, one entity_walk tick with active
true moves one cell in the facing direction, each axis clamped to
[0, 19], leaving the other axis unchanged: East gives x' = min(x+1, 19),
North gives y' = min(y+1, 19), South gives y' = max(y-1, 0), West gives
x' = max(x-1, 0). -/
theorem entity_walk_clamped_step (p : Position) (ph : Bool) (h : inBounds p) :
    (entity_walk ⟨Direction.East, ⟨true, ph⟩, p⟩).position = ⟨min (p.x + 1) 19, p.y⟩ ∧
    (entity_walk ⟨Direction.North, ⟨true, ph⟩, p⟩).position = ⟨p.x, min (p.y + 1) 19⟩ ∧
    (entity_walk ⟨Direction.South, ⟨true, ph⟩, p⟩).position = ⟨p.x, max (p.y - 1) 0⟩ ∧
    (entity_walk ⟨Direction.West, ⟨true, ph⟩, p⟩).position = ⟨max (p.x - 1) 0, p.y⟩ := by
  obtain ⟨x, y⟩ := p
  refine ⟨?_, ?_, ?_, ?_⟩ <;>
    rw [entity_walk_position_active _ rfl] <;>
    simp [ARENA_WIDTH, ARENA_HEIGHT]

theorem entity_walk_clamped_step_witness :
    (entity_walk ⟨Direction.East, ⟨true, true⟩, ⟨3, 0⟩⟩).position = ⟨min (3 + 1) 19, 0⟩ ∧
    (entity_walk ⟨Direction.North, ⟨true, true⟩, ⟨3, 0⟩⟩).position = ⟨3, min (0 + 1) 19⟩ ∧
    (entity_walk ⟨Direction.South, ⟨true, true⟩, ⟨3, 0⟩⟩).position = ⟨3, max (0 - 1) 0⟩ ∧
    (entity_walk ⟨Direction.West, ⟨true, true⟩, ⟨3, 0⟩⟩).position = ⟨max (3 - 1) 0, 0⟩ :=
  entity_walk_clamped_step ⟨3, 0⟩ true (by decide)

/-- C2: whenever the clamped candidate equals the pre-move position,
entity_walk clears the active flag; from x = 19 facing East with active
true, iterated ticks never change the position, and after every n ≥ 1
ticks the active flag is false (it is cleared by the very first tick). -/
theorem entity_walk_boundary_autostop (y : Int) (ph : Bool) (n : Nat) :
    (∀ s : PlayerState, s.moving.fst = true → (entity_walk s).position = s.position →
        (entity_walk s).moving.fst = false) ∧
    (entity_walk^[n] (⟨Direction.East, ⟨true, ph⟩, ⟨19, y⟩⟩ : PlayerState)).position =
        ⟨19, y⟩ ∧
    (1 ≤ n →
      (entity_walk^[n] (⟨Direction.East, ⟨true, ph⟩, ⟨19, y⟩⟩ : PlayerState)).moving.fst =
        false) := by
  refine ⟨entity_walk_stop_at_wall, ?_, ?_⟩
  · cases n with
    | zero => rfl
    | succ m => rw [entity_walk_iterate_east_wall y ph (m + 1) (by omega)]
  · intro hn
    rw [entity_walk_iterate_east_wall y ph n hn]

theorem entity_walk_boundary_autostop_witness :
    (entity_walk^[3] (⟨Direction.East, ⟨true, true⟩, ⟨19, 5⟩⟩ : PlayerState)).position =
        ⟨19, 5⟩ ∧
    (entity_walk^[3] (⟨Direction.East, ⟨true, true⟩, ⟨19, 5⟩⟩ : PlayerState)).moving.fst =
        false ∧
    (entity_walk (⟨Direction.East, ⟨true, true⟩, ⟨19, 5⟩⟩ : PlayerState)).moving.fst =
        false :=
  ⟨(entity_walk_boundary_autostop 5 true 3).2.1,
   (entity_walk_boundary_autostop 5 true 3).2.2 (by decide),
   (entity_walk_boundary_autostop 5 true 1).1 ⟨Direction.East, ⟨true, true⟩, ⟨19, 5⟩⟩
     rfl (by decide)⟩

/-- The player state after toggling movement on from an idle state at
the origin facing North with phase bit b, then running n entity_walk
ticks with no further input. -/
def after_toggle_and_ticks (b : Bool) (n : Nat) : PlayerState :=
  entity_walk^[n]
    { direction := Direction.North
      moving := move_player true { fst := false, snd := b }
      position := Position.new 0 0 }

/-- C3 counterexample: with the setup phase bit (true), toggling
movement on at (0,0) facing North and running 5 ticks does NOT leave
the player at (0,4); the code advances one cell per tick and reaches
(0,5). -/
theorem five_ticks_position_not_0_4 :
    ¬ (after_toggle_and_ticks true 5).position = Position.new 0 4 := by
  decide

/-- C3 amended: starting from position (0,0), direction North, active
false and any phase bit b, after toggling active on and executing
exactly 5 entity_walk ticks, the position is (0,5), active is still
true, and the phase bit equals b XOR true (it flipped 5 times). -/
theorem five_ticks_from_origin_north (b : Bool) :
    (after_toggle_and_ticks b 5).position = Position.new 0 5 ∧
    (after_toggle_and_ticks b 5).moving.fst = true ∧
    (after_toggle_and_ticks b 5).moving.snd = xor b true := by
  cases b <;> decide

/-- C4: the sprite index for the player is the per-direction base
(North 40, South 4, East 28, West 16) when active is false, base+1 when
active and phase are both true, and base-1 when active is true and
phase is false. -/
theorem body_sprite_index_law (d : Direction) (ph : Bool) :
    body_sprite_for d { fst := false, snd := ph } = center_sprite_for d ∧
    body_sprite_for d { fst := true, snd := true } = center_sprite_for d + 1 ∧
    body_sprite_for d { fst := true, snd := false } = center_sprite_for d - 1 ∧
    center_sprite_for Direction.North = 40 ∧
    center_sprite_for Direction.South = 4 ∧
    center_sprite_for Direction.East = 28 ∧
    center_sprite_for Direction.West = 16 := by
  cases d <;> cases ph <;> decide

/-- C5: one entity_walk invocation changes the phase bit if and only
if the active flag was true at entry; when active is false at entry the
phase bit is unchanged. -/
theorem phase_flips_iff_active (s : PlayerState) :
    (((entity_walk s).moving.snd ≠ s.moving.snd) ↔ s.moving.fst = true) ∧
    (s.moving.fst = false → (entity_walk s).moving.snd = s.moving.snd) := by
  rw [entity_walk_moving_snd]
  cases hm : s.moving.fst <;> simp [hm]

theorem phase_flips_iff_active_witness :
    ((entity_walk ⟨Direction.South, ⟨false, true⟩, ⟨1, 1⟩⟩).moving.snd ≠ true ↔
        false = true) ∧
    (entity_walk ⟨Direction.South, ⟨false, true⟩, ⟨1, 1⟩⟩).moving.snd = true :=
  ⟨(phase_flips_iff_active ⟨Direction.South, ⟨false, true⟩, ⟨1, 1⟩⟩).1,
   (phase_flips_iff_active ⟨Direction.South, ⟨false, true⟩, ⟨1, 1⟩⟩).2 rfl⟩

/-- C6: the arena-bounds predicate on the position is an invariant:
entity_walk maps any in-bounds position to an in-bounds position, the
direction and movement-toggle operations never change the position, and
every state reachable from the initial player state by any sequence of
operations has an in-bounds position. -/
theorem position_in_bounds_invariant (s : PlayerState) (ops : List Op)
    (kb : KeyboardState) (r : Bool) (h : inBounds s.position) :
    inBounds (entity_walk s).position ∧
    (applyOp (Op.keys kb) s).position = s.position ∧
    (applyOp (Op.toggle r) s).position = s.position ∧
    inBounds (runOps ops initialPlayer).position := by
  refine ⟨entity_walk_preserves_bounds s h, rfl, rfl, ?_⟩
  exact runOps_preserves_bounds ops initialPlayer (by decide)

theorem position_in_bounds_invariant_witness :
    inBounds (entity_walk ⟨Direction.North, ⟨true, true⟩, ⟨19, 19⟩⟩).position ∧
    (applyOp (Op.keys ⟨true, false, false, false⟩)
        ⟨Direction.North, ⟨true, true⟩, ⟨19, 19⟩⟩).position = (⟨19, 19⟩ : Position) ∧
    (applyOp (Op.toggle true)
        ⟨Direction.North, ⟨true, true⟩, ⟨19, 19⟩⟩).position = (⟨19, 19⟩ : Position) ∧
    inBounds (runOps [Op.toggle true, Op.tick, Op.tick] initialPlayer).position :=
  position_in_bounds_invariant ⟨Direction.North, ⟨true, true⟩, ⟨19, 19⟩⟩
    [Op.toggle true, Op.tick, Op.tick] ⟨true, false, false, false⟩ true (by decide)

/-- C7: convert places cell 0 at -W/2 + W/40 and cell 19 at
W/2 - W/40 for arena extent 20 (the extreme cells sit symmetric about
the viewport center, inset by half a tile), and in general computes
pos / bound_game * bound_window - bound_window/2 + tile_size/2 with
tile_size = bound_window / bound_game. -/
theorem convert_extremes_symmetric (W pos bw bg : ℚ) :
    convert 0 W 20 = -(W / 2) + W / 40 ∧
    convert 19 W 20 = W / 2 - W / 40 ∧
    convert pos bw bg = pos / bg * bw - bw / 2 + (bw / bg) / 2 := by
  refine ⟨?_, ?_, rfl⟩ <;> (unfold convert; ring)

/-- C8: in one frame, change_player_direction leaves the direction
unchanged when no directional key is pressed, and otherwise sets it to
the last pressed key in the polling order North, West, South, East
(last write wins), exactly the spec-side resolver. -/
theorem direction_last_write_wins (kb : KeyboardState) (dir : Direction) :
    change_player_direction kb dir = resolve_direction_spec kb dir ∧
    change_player_direction { w := false, a := false, s := false, d := false } dir = dir := by
  obtain ⟨w, a, s, d⟩ := kb
  cases w <;> cases a <;> cases s <;> cases d <;> cases dir <;> decide

/-- C9: when active is false at entry, entity_walk is the identity on
the whole player state: direction, position, active flag and phase bit
are all unchanged. -/
theorem entity_walk_inactive_noop (s : PlayerState) (h : s.moving.fst = false) :
    entity_walk s = s :=
  entity_walk_inactive s h

theorem entity_walk_inactive_noop_witness :
    entity_walk ⟨Direction.West, ⟨false, false⟩, ⟨7, 7⟩⟩ =
      ⟨Direction.West, ⟨false, false⟩, ⟨7, 7⟩⟩ :=
  entity_walk_inactive_noop ⟨Direction.West, ⟨false, false⟩, ⟨7, 7⟩⟩ rfl

/-- C10: setup spawns exactly one entity carrying the Player marker,
and its initial components are Direction::North, Position (0,0) and
Moving(false, true): active is false and the walk-cycle phase bit
starts true. -/
theorem setup_single_player_initial_state :
    setup.filter isPlayerEntity =
      [SpawnedEntity.player Direction.North (Position.new 0 0) { fst := false, snd := true }] ∧
    (setup.filter isPlayerEntity).length = 1 ∧
    initialPlayer =
      { direction := Direction.North
        moving := { fst := false, snd := true }
        position := Position.new 0 0 } := by
  refine ⟨by decide, by decide, rfl⟩

end Adventure
